import Mathlib

/-!
# Verification of the solar-theme color engine

Shallow embedding of the core of `src/extension.ts` and
`src/settingsPanel.ts` of the solar-theme editor extension:

* the Solar Time Mapper (`getSolarTime`),
* Color Math (`hexToRgb`, `rgbToHex`, `lerpColor`),
* the Palette Table (`PALETTES`, `TIME_PHASES`) and the Palette
  Resolver (`lerpPalette`, `getCurrentPalette`),
* the Update Scheduler's decision logic (`updateColors`), and
* the Preview Coordinator's validation (`_previewPhase`).

JavaScript numbers are modelled as exact rationals, extended with the
IEEE special values `NaN`/`±Infinity` where a division can produce
them (the solar-time formulas).  All definitions mirror the TypeScript
source line by line; external capabilities (the configuration store,
the `workbench.colorCustomizations` write, `SunCalc.getTimes`) are
passed in as explicit parameters.
-/

/-- A JavaScript number: either a finite value (kept exact as a
rational) or one of the IEEE special values that the source's
divisions can produce. -/
inductive JsNum where
  | nan : JsNum
  | posInf : JsNum
  | negInf : JsNum
  | fin : ℚ → JsNum
deriving DecidableEq, Repr

namespace JsNum

/-- JavaScript division of two finite numbers: `0/0` is `NaN`,
`x/0` for `x ≠ 0` is a signed infinity, otherwise exact division. -/
def divQ (a b : ℚ) : JsNum :=
  if b = 0 then
    if a = 0 then nan
    else if 0 < a then posInf
    else negInf
  else fin (a / b)

/-- JavaScript addition on the extended number line. -/
def add : JsNum → JsNum → JsNum
  | nan, _ => nan
  | _, nan => nan
  | posInf, negInf => nan
  | negInf, posInf => nan
  | posInf, _ => posInf
  | _, posInf => posInf
  | negInf, _ => negInf
  | _, negInf => negInf
  | fin a, fin b => fin (a + b)

/-- JavaScript multiplication on the extended number line
(`∞ * 0 = NaN`). -/
def mul : JsNum → JsNum → JsNum
  | nan, _ => nan
  | _, nan => nan
  | posInf, posInf => posInf
  | posInf, negInf => negInf
  | negInf, posInf => negInf
  | negInf, negInf => posInf
  | posInf, fin b => if b = 0 then nan else if 0 < b then posInf else negInf
  | fin a, posInf => if a = 0 then nan else if 0 < a then posInf else negInf
  | negInf, fin b => if b = 0 then nan else if 0 < b then negInf else posInf
  | fin a, negInf => if a = 0 then nan else if 0 < a then negInf else posInf
  | fin a, fin b => fin (a * b)

end JsNum

/-!
## 4.3 Solar Time Mapper — `getSolarTime` (extension.ts lines 499–530)

The source reads the wall clock and `SunCalc.getTimes`, turns the three
`Date`s into fractional hours (`getHours() + getMinutes()/60`), and then
dispatches on three branches.  The branch bodies are embedded verbatim;
the hour extraction is an external input here, so the core takes the
three fractional hours directly.
-/

/-- Daytime branch (extension.ts lines 517–520):
`dayProgress = (currentHour - sunriseHour) / (sunsetHour - sunriseHour);
return 6.5 + dayProgress * (18 - 6.5)`. -/
def dayBranch (currentHour sunriseHour sunsetHour : ℚ) : JsNum :=
  JsNum.add (.fin (13/2))
    (JsNum.mul (JsNum.divQ (currentHour - sunriseHour) (sunsetHour - sunriseHour))
      (.fin (18 - 13/2)))

/-- Pre-sunrise branch (extension.ts lines 521–524):
`nightProgress = currentHour / sunriseHour; return nightProgress * 6.5`. -/
def preSunriseBranch (currentHour sunriseHour : ℚ) : JsNum :=
  JsNum.mul (JsNum.divQ currentHour sunriseHour) (.fin (13/2))

/-- Post-sunset branch (extension.ts lines 525–529):
`nightProgress = (currentHour - sunsetHour) / (24 - sunsetHour);
return 18 + nightProgress * 6`. -/
def postSunsetBranch (currentHour sunsetHour : ℚ) : JsNum :=
  JsNum.add (.fin 18)
    (JsNum.mul (JsNum.divQ (currentHour - sunsetHour) (24 - sunsetHour)) (.fin 6))

/-- `getSolarTime` (extension.ts lines 499–530), with the three
fractional hours (current time, sunrise, sunset) as explicit inputs.
The source contains no guard on any of the three divisions. -/
def getSolarTimeCore (currentHour sunriseHour sunsetHour : ℚ) : JsNum :=
  if sunriseHour ≤ currentHour ∧ currentHour ≤ sunsetHour then
    dayBranch currentHour sunriseHour sunsetHour
  else if currentHour < sunriseHour then
    preSunriseBranch currentHour sunriseHour
  else
    postSunsetBranch currentHour sunsetHour

/-- C1: On the degenerate input `now = sunrise = sunset = 12`
(sunrise equal to sunset while `now` lies between them, as in polar
day/night), the daytime branch computes `dayProgress = 0/0 = NaN` and
`getSolarTime` returns `NaN`, not the interval's start value `6.5`:
the divisions are NOT guarded.  This contradicts the claim and the
spec's stated intent. -/
theorem getSolarTime_degenerate_returns_nan :
    getSolarTimeCore 12 12 12 = JsNum.nan ∧
      getSolarTimeCore 12 12 12 ≠ JsNum.fin (13/2) := by
  have h : getSolarTimeCore 12 12 12 = JsNum.nan := by
    simp [getSolarTimeCore, dayBranch, JsNum.divQ, JsNum.mul, JsNum.add]
  exact ⟨h, by simp [h]⟩

/-- C3: For all sunrise/sunset pairs with `0 < sunriseHour < sunsetHour
< 24`, the piecewise solar-time function is continuous at the branch
boundaries: at `now = sunriseHour` the pre-sunrise branch and the
daytime branch both yield exactly `6.5`, and at `now = sunsetHour` the
daytime branch and the post-sunset branch both yield exactly `18`. -/
theorem getSolarTime_continuous_at_boundaries
    (sunriseHour sunsetHour : ℚ)
    (h0 : 0 < sunriseHour) (h1 : sunriseHour < sunsetHour)
    (h2 : sunsetHour < 24) :
    preSunriseBranch sunriseHour sunriseHour = JsNum.fin (13/2) ∧
    dayBranch sunriseHour sunriseHour sunsetHour = JsNum.fin (13/2) ∧
    dayBranch sunsetHour sunriseHour sunsetHour = JsNum.fin 18 ∧
    postSunsetBranch sunsetHour sunsetHour = JsNum.fin 18 := by
  have hsr : sunriseHour ≠ 0 := ne_of_gt h0
  have hd : sunsetHour - sunriseHour ≠ 0 := sub_ne_zero.mpr h1.ne'
  have h24 : (24 : ℚ) - sunsetHour ≠ 0 := sub_ne_zero.mpr h2.ne'
  refine ⟨?_, ?_, ?_, ?_⟩
  · simp only [preSunriseBranch, JsNum.divQ, hsr, if_neg hsr,
      div_self hsr, JsNum.mul]
    norm_num
  · simp only [dayBranch, JsNum.divQ, sub_self, if_neg hd, zero_div,
      JsNum.mul, JsNum.add]
    norm_num
  · simp only [dayBranch, JsNum.divQ, if_neg hd, div_self hd,
      JsNum.mul, JsNum.add]
    norm_num
  · simp only [postSunsetBranch, JsNum.divQ, sub_self, if_neg h24,
      zero_div, JsNum.mul, JsNum.add]
    norm_num

/-- Witness for C3 at the nominal anchors `sunrise = 6.5`,
`sunset = 18`. -/
theorem getSolarTime_continuous_at_boundaries_witness :
    (0 : ℚ) < 13/2 ∧ (13/2 : ℚ) < 18 ∧ (18 : ℚ) < 24 ∧
    (preSunriseBranch (13/2) (13/2) = JsNum.fin (13/2) ∧
     dayBranch (13/2) (13/2) 18 = JsNum.fin (13/2) ∧
     dayBranch 18 (13/2) 18 = JsNum.fin 18 ∧
     postSunsetBranch 18 18 = JsNum.fin 18) :=
  ⟨by norm_num, by norm_num, by norm_num,
   getSolarTime_continuous_at_boundaries (13/2) 18
     (by norm_num) (by norm_num) (by norm_num)⟩

/-!
## 4.1 Color Math (extension.ts lines 449–481)

Strings are Lean `String`s; the regex
`/^#?([a-f\d]{2})([a-f\d]{2})([a-f\d]{2})$/i` of `hexToRgb` is embedded
as an explicit match on the character list: an optional leading `#`
followed by exactly six case-insensitive hex digits.
-/

/-- One character of the regex class `[a-f\d]` with the `i` flag. -/
def isHexDigitChar (c : Char) : Bool :=
  ('0' ≤ c && c ≤ '9') || ('a' ≤ c && c ≤ 'f') || ('A' ≤ c && c ≤ 'F')

/-- Numeric value of a hex digit, as `parseInt(_, 16)` assigns it
(only used on characters accepted by `isHexDigitChar`). -/
def hexDigitVal (c : Char) : Nat :=
  if c ≤ '9' then c.toNat - '0'.toNat
  else if c ≤ 'F' then c.toNat - 'A'.toNat + 10
  else c.toNat - 'a'.toNat + 10

/-- The record `{r, g, b}` returned by `hexToRgb`. -/
structure Rgb where
  r : Nat
  g : Nat
  b : Nat
deriving DecidableEq, Repr

/-- `hexToRgb` (extension.ts lines 450–460): parse a 6-hex-digit color,
case-insensitive, optional leading `#`; fall back to `{0,0,0}` on any
string the regex rejects. -/
def hexToRgb (hex : String) : Rgb :=
  let cs :=
    match hex.data with
    | '#' :: rest => rest
    | cs => cs
  match cs with
  | [c1, c2, c3, c4, c5, c6] =>
    if [c1, c2, c3, c4, c5, c6].all isHexDigitChar then
      { r := hexDigitVal c1 * 16 + hexDigitVal c2,
        g := hexDigitVal c3 * 16 + hexDigitVal c4,
        b := hexDigitVal c5 * 16 + hexDigitVal c6 }
    else { r := 0, g := 0, b := 0 }
  | _ => { r := 0, g := 0, b := 0 }

/-- `Math.round` for a nonnegative-after-clamp argument:
round half toward `+∞`, i.e. `⌊x + 1/2⌋`. -/
def jsRound (q : ℚ) : ℤ := ⌊q + 1/2⌋

/-- Lowercase hex digit character, as `Number.prototype.toString(16)`
produces. -/
def hexDigitChar (n : Nat) : Char :=
  if n < 10 then Char.ofNat ('0'.toNat + n)
  else Char.ofNat ('a'.toNat + (n - 10))

/-- `n.toString(16)` for a nonnegative integer `n`: base-16 digits,
lowercase, no leading zeros (`Nat.toDigits 16` produces exactly the
character sequence JavaScript does). -/
def natToHexStr (n : Nat) : String :=
  String.mk (Nat.toDigits 16 n)

/-- The inner `toHex` of `rgbToHex` (extension.ts lines 464–467):
clamp to `[0,255]`, round, convert to hex, pad to two digits. -/
def toHexByte (n : ℚ) : String :=
  let m : Nat := (jsRound (max 0 (min 255 n))).toNat
  let hex := natToHexStr m
  if hex.length = 1 then "0" ++ hex else hex

/-- `rgbToHex` (extension.ts lines 463–469). -/
def rgbToHex (r g b : ℚ) : String :=
  "#" ++ toHexByte r ++ toHexByte g ++ toHexByte b

/-- `lerpColor` (extension.ts lines 472–481): component-wise linear
interpolation in RGB space. -/
def lerpColor (color1 color2 : String) (t : ℚ) : String :=
  let c1 := hexToRgb color1
  let c2 := hexToRgb color2
  let r : ℚ := c1.r + ((c2.r : ℚ) - c1.r) * t
  let g : ℚ := c1.g + ((c2.g : ℚ) - c1.g) * t
  let b : ℚ := c1.b + ((c2.b : ℚ) - c1.b) * t
  rgbToHex r g b

/-!
### Round-trip lemmas for Color Math
-/

/-- Clamp-and-round is the identity on integer channel values in
`[0,255]`. -/
theorem clampRound_nat (m : Nat) (hm : m ≤ 255) :
    (jsRound (max 0 (min 255 (m : ℚ)))).toNat = m := by
  have h1 : (m : ℚ) ≤ 255 := by exact_mod_cast hm
  have h2 : (0 : ℚ) ≤ (m : ℚ) := Nat.cast_nonneg m
  rw [min_eq_right h1, max_eq_right h2]
  have hf : ⌊(m : ℚ) + 1/2⌋ = m := by
    have : ⌊(1/2 : ℚ) + (m : ℕ)⌋ = ⌊(1/2 : ℚ)⌋ + m := Int.floor_add_nat _ m
    rw [add_comm, this, Int.floor_eq_zero_iff.mpr (by constructor <;> norm_num)]
    ring
  rw [jsRound, hf, Int.toNat_natCast]

set_option maxRecDepth 4096 in
/-- The two-digit padded hex form of every byte value. -/
theorem natToHexStr_pad (m : Fin 256) :
    (if (natToHexStr m.val).length = 1 then "0" ++ natToHexStr m.val
     else natToHexStr m.val) =
      String.mk [hexDigitChar (m.val / 16), hexDigitChar (m.val % 16)] := by
  revert m; decide

/-- `toHexByte` on an integer byte value yields its two lowercase hex
digits. -/
theorem toHexByte_nat (m : Nat) (hm : m ≤ 255) :
    toHexByte (m : ℚ) =
      String.mk [hexDigitChar (m / 16), hexDigitChar (m % 16)] := by
  have hp := natToHexStr_pad ⟨m, by omega⟩
  simp only [toHexByte, clampRound_nat m hm]
  exact hp

/-- Every lowercase hex digit character passes the regex class. -/
theorem isHexDigitChar_hexDigitChar (d : Fin 16) :
    isHexDigitChar (hexDigitChar d.val) = true := by
  revert d; decide

/-- Parsing inverts printing on single hex digits. -/
theorem hexDigitVal_hexDigitChar (d : Fin 16) :
    hexDigitVal (hexDigitChar d.val) = d.val := by
  revert d; decide

/-- `hexToRgb` on a canonical `'#' + 6 hex digits` character list. -/
theorem hexToRgb_mk (c1 c2 c3 c4 c5 c6 : Char)
    (h : [c1, c2, c3, c4, c5, c6].all isHexDigitChar = true) :
    hexToRgb (String.mk ['#', c1, c2, c3, c4, c5, c6]) =
      { r := hexDigitVal c1 * 16 + hexDigitVal c2,
        g := hexDigitVal c3 * 16 + hexDigitVal c4,
        b := hexDigitVal c5 * 16 + hexDigitVal c6 } := by
  simp [hexToRgb, h]

/-- Core round-trip: `hexToRgb (rgbToHex r g b) = {r, g, b}` for
integer channels in `[0,255]`. -/
theorem hexToRgb_rgbToHex_nat (r g b : Nat)
    (hr : r ≤ 255) (hg : g ≤ 255) (hb : b ≤ 255) :
    hexToRgb (rgbToHex (r : ℚ) (g : ℚ) (b : ℚ)) = ⟨r, g, b⟩ := by
  have digit : ∀ n : Nat, n ≤ 255 →
      isHexDigitChar (hexDigitChar (n / 16)) = true ∧
      isHexDigitChar (hexDigitChar (n % 16)) = true ∧
      hexDigitVal (hexDigitChar (n / 16)) = n / 16 ∧
      hexDigitVal (hexDigitChar (n % 16)) = n % 16 := by
    intro n hn
    exact ⟨isHexDigitChar_hexDigitChar ⟨n / 16, by omega⟩,
      isHexDigitChar_hexDigitChar ⟨n % 16, Nat.mod_lt n (by omega)⟩,
      hexDigitVal_hexDigitChar ⟨n / 16, by omega⟩,
      hexDigitVal_hexDigitChar ⟨n % 16, Nat.mod_lt n (by omega)⟩⟩
  obtain ⟨hr1, hr2, hr3, hr4⟩ := digit r hr
  obtain ⟨hg1, hg2, hg3, hg4⟩ := digit g hg
  obtain ⟨hb1, hb2, hb3, hb4⟩ := digit b hb
  rw [rgbToHex, toHexByte_nat r hr, toHexByte_nat g hg, toHexByte_nat b hb]
  rw [show "#" ++ String.mk [hexDigitChar (r / 16), hexDigitChar (r % 16)] ++
        String.mk [hexDigitChar (g / 16), hexDigitChar (g % 16)] ++
        String.mk [hexDigitChar (b / 16), hexDigitChar (b % 16)] =
      String.mk ['#', hexDigitChar (r / 16), hexDigitChar (r % 16),
        hexDigitChar (g / 16), hexDigitChar (g % 16),
        hexDigitChar (b / 16), hexDigitChar (b % 16)] from rfl]
  rw [hexToRgb_mk _ _ _ _ _ _ (by simp [hr1, hr2, hg1, hg2, hb1, hb2])]
  rw [hr3, hr4, hg3, hg4, hb3, hb4]
  congr 1 <;> omega

/-- C7: For all integer channel values `r, g, b` in `[0,255]`,
`hexToRgb (rgbToHex r g b)` returns exactly `{r, g, b}`. -/
theorem hexToRgb_rgbToHex_roundtrip (r g b : Nat)
    (hr : r ≤ 255) (hg : g ≤ 255) (hb : b ≤ 255) :
    hexToRgb (rgbToHex (r : ℚ) (g : ℚ) (b : ℚ)) = ⟨r, g, b⟩ :=
  hexToRgb_rgbToHex_nat r g b hr hg hb

/-- Witness for C7 at `(r, g, b) = (18, 52, 86)`. -/
theorem hexToRgb_rgbToHex_roundtrip_witness :
    18 ≤ 255 ∧ 52 ≤ 255 ∧ 86 ≤ 255 ∧
      hexToRgb (rgbToHex ((18 : ℕ) : ℚ) ((52 : ℕ) : ℚ) ((86 : ℕ) : ℚ)) =
        ⟨18, 52, 86⟩ :=
  ⟨by norm_num, by norm_num, by norm_num,
   hexToRgb_rgbToHex_roundtrip 18 52 86 (by norm_num) (by norm_num) (by norm_num)⟩

/-- C8 counterexample: `"#AABBCC"` is a hex color string the parser
accepts (the regex is case-insensitive), but
`lerpColor "#AABBCC" "#000000" 0` returns the re-serialized lowercase
`"#aabbcc"`, which is not string-equal to the input `"#AABBCC"`. -/
theorem lerpColor_zero_not_input_counterexample :
    lerpColor "#AABBCC" "#000000" 0 = "#aabbcc" ∧
      lerpColor "#AABBCC" "#000000" 0 ≠ "#AABBCC" := by
  have h1 : hexToRgb "#AABBCC" = ⟨170, 187, 204⟩ := by decide
  have h2 : hexToRgb "#000000" = ⟨0, 0, 0⟩ := by decide
  have hc : lerpColor "#AABBCC" "#000000" 0 =
      rgbToHex ((170 : ℕ) : ℚ) ((187 : ℕ) : ℚ) ((204 : ℕ) : ℚ) := by
    simp only [lerpColor, h1, h2]
    norm_num
  have h3 : rgbToHex ((170 : ℕ) : ℚ) ((187 : ℕ) : ℚ) ((204 : ℕ) : ℚ) =
      "#aabbcc" := by
    rw [rgbToHex, toHexByte_nat 170 (by norm_num), toHexByte_nat 187 (by norm_num),
      toHexByte_nat 204 (by norm_num)]
    decide
  rw [hc, h3]
  exact ⟨rfl, by decide⟩

/-- C8 amended: for canonical hex color strings — the strings
`rgbToHex` itself produces from integer channels in `[0,255]`, i.e.
`'#'` followed by six lowercase hex digits —
`lerpColor A B 0 = A` and `lerpColor A B 1 = B` exactly. -/
theorem lerpColor_endpoints_canonical (r1 g1 b1 r2 g2 b2 : Nat)
    (h1 : r1 ≤ 255) (h2 : g1 ≤ 255) (h3 : b1 ≤ 255)
    (h4 : r2 ≤ 255) (h5 : g2 ≤ 255) (h6 : b2 ≤ 255) :
    lerpColor (rgbToHex (r1 : ℚ) (g1 : ℚ) (b1 : ℚ))
        (rgbToHex (r2 : ℚ) (g2 : ℚ) (b2 : ℚ)) 0 =
      rgbToHex (r1 : ℚ) (g1 : ℚ) (b1 : ℚ) ∧
    lerpColor (rgbToHex (r1 : ℚ) (g1 : ℚ) (b1 : ℚ))
        (rgbToHex (r2 : ℚ) (g2 : ℚ) (b2 : ℚ)) 1 =
      rgbToHex (r2 : ℚ) (g2 : ℚ) (b2 : ℚ) := by
  constructor
  · simp only [lerpColor, hexToRgb_rgbToHex_nat r1 g1 b1 h1 h2 h3,
      hexToRgb_rgbToHex_nat r2 g2 b2 h4 h5 h6]
    norm_num
  · simp only [lerpColor, hexToRgb_rgbToHex_nat r1 g1 b1 h1 h2 h3,
      hexToRgb_rgbToHex_nat r2 g2 b2 h4 h5 h6]
    congr 1 <;> ring

/-!
## 4.2 / 4.4 Palette Table and Palette Resolver
(extension.ts lines 38–224 and 484–556)

A palette is the ordered association list of its color slots, in the
declaration order of the TypeScript object literal (the order
`Object.keys` iterates in `lerpPalette`).
-/

/-- A `ColorPalette`: ordered slots, slot name to hex color string. -/
abbrev Palette := List (String × String)

def ACCENT_FOREGROUND : String := "#e4e4e7"
def EDITOR_FG : String := "#d0d5dd"
def SIDEBAR_FG : String := "#b8c0c8"

/-- Build a palette record in the source's slot order. -/
def mkPalette (eb ef sb sf ab stb ttb tabb tabab ac acf term bord : String) :
    Palette :=
  [("editorBackground", eb), ("editorForeground", ef),
   ("sidebarBackground", sb), ("sidebarForeground", sf),
   ("activityBarBackground", ab), ("statusBarBackground", stb),
   ("titleBarBackground", ttb), ("tabBackground", tabb),
   ("tabActiveBackground", tabab), ("accentColor", ac),
   ("accentForeground", acf), ("terminalBackground", term),
   ("borderColor", bord)]

/-- The slot names every table palette declares, in order. -/
def slotKeys : List String :=
  ["editorBackground", "editorForeground", "sidebarBackground",
   "sidebarForeground", "activityBarBackground", "statusBarBackground",
   "titleBarBackground", "tabBackground", "tabActiveBackground",
   "accentColor", "accentForeground", "terminalBackground", "borderColor"]

/-- `PALETTES` (extension.ts lines 45–206). -/
def PALETTES : List (String × Palette) :=
  [("night", mkPalette "#1a1d24" EDITOR_FG "#14171d" SIDEBAR_FG "#0f1115"
      "#0f1115" "#0f1115" "#14171d" "#1a1d24" "#4a5568" ACCENT_FOREGROUND
      "#171a20" "#2d3748"),
   ("preDawn", mkPalette "#1c1a24" EDITOR_FG "#16141d" SIDEBAR_FG "#111015"
      "#111015" "#111015" "#16141d" "#1c1a24" "#5a5170" ACCENT_FOREGROUND
      "#191720" "#332d45"),
   ("dawn", mkPalette "#211e1a" EDITOR_FG "#1a1814" SIDEBAR_FG "#14120f"
      "#14120f" "#14120f" "#1a1814" "#211e1a" "#8b7355" ACCENT_FOREGROUND
      "#1e1b17" "#3d3530"),
   ("sunrise", mkPalette "#232019" EDITOR_FG "#1c1a14" SIDEBAR_FG "#16140f"
      "#16140f" "#16140f" "#1c1a14" "#232019" "#9a8560" ACCENT_FOREGROUND
      "#201d16" "#45402f"),
   ("morning", mkPalette "#201f1c" EDITOR_FG "#1a1917" SIDEBAR_FG "#141311"
      "#141311" "#141311" "#1a1917" "#201f1c" "#6b6560" ACCENT_FOREGROUND
      "#1d1c19" "#383530"),
   ("midday", mkPalette "#1e1e1e" EDITOR_FG "#181818" SIDEBAR_FG "#121212"
      "#121212" "#121212" "#181818" "#1e1e1e" "#606060" ACCENT_FOREGROUND
      "#1b1b1b" "#333333"),
   ("afternoon", mkPalette "#1b1d20" EDITOR_FG "#15171a" SIDEBAR_FG "#101214"
      "#101214" "#101214" "#15171a" "#1b1d20" "#556070" ACCENT_FOREGROUND
      "#181a1d" "#2a3040"),
   ("goldenHour", mkPalette "#241f18" EDITOR_FG "#1d1913" SIDEBAR_FG "#17140e"
      "#17140e" "#17140e" "#1d1913" "#241f18" "#a08050" ACCENT_FOREGROUND
      "#211c15" "#4a4030"),
   ("sunset", mkPalette "#221a1e" EDITOR_FG "#1b1418" SIDEBAR_FG "#150f12"
      "#150f12" "#150f12" "#1b1418" "#221a1e" "#8a6070" ACCENT_FOREGROUND
      "#1f171b" "#402a35"),
   ("dusk", mkPalette "#1e1a24" EDITOR_FG "#17141d" SIDEBAR_FG "#120f16"
      "#120f16" "#120f16" "#17141d" "#1e1a24" "#705880" ACCENT_FOREGROUND
      "#1b1720" "#352845")]

/-- `PALETTES[name]`.  Every phase name used in `TIME_PHASES` is
present in the table; the empty-palette default is unreachable there
(it mirrors the `undefined` a missing key would produce). -/
def paletteFor (name : String) : Palette :=
  (PALETTES.lookup name).getD []

/-- `TIME_PHASES` (extension.ts lines 209–224). -/
def TIME_PHASES : List (ℚ × String) :=
  [(0, "night"), (4, "night"), (5, "preDawn"), (6, "dawn"),
   (13/2, "sunrise"), (8, "morning"), (11, "midday"), (13, "midday"),
   (15, "afternoon"), (17, "goldenHour"), (18, "sunset"), (19, "dusk"),
   (20, "night"), (24, "night")]

/-- `lerpPalette` (extension.ts lines 484–496): iterate the keys of
`palette1` in order, interpolating each slot against the slot of the
same name in `palette2` (the table palettes all carry every slot, so
the lookup never misses there; `"undefined"` mirrors the string a
missing key would feed the parser). -/
def lerpPalette (palette1 palette2 : Palette) (t : ℚ) : Palette :=
  palette1.map fun kv =>
    (kv.1, lerpColor kv.2 ((palette2.lookup kv.1).getD "undefined") t)

/-- The breakpoint scan of `getCurrentPalette` (extension.ts lines
540–546): walk adjacent pairs `(TIME_PHASES[i], TIME_PHASES[i+1])`,
returning the first with `prev.time ≤ solarTime < next.time`;
`none` when no pair matches. -/
def scanFrom (solarTime : ℚ) (p : ℚ × String) :
    List (ℚ × String) → Option ((ℚ × String) × (ℚ × String))
  | [] => none
  | q :: rest =>
    if p.1 ≤ solarTime ∧ solarTime < q.1 then some (p, q)
    else scanFrom solarTime q rest

/-- The pair `(prevPhase, nextPhase)` selected by `getCurrentPalette`:
the scan's hit, or the pre-loop defaults `TIME_PHASES[0]`,
`TIME_PHASES[1]` when the scan never matches. -/
def bracketPair (solarTime : ℚ) : (ℚ × String) × (ℚ × String) :=
  (scanFrom solarTime (0, "night") TIME_PHASES.tail).getD
    ((0, "night"), (4, "night"))

/-- `getCurrentPalette` (extension.ts lines 533–556), as a function of
the already-computed solar time. -/
def getCurrentPaletteAt (solarTime : ℚ) : Palette :=
  let pair := bracketPair solarTime
  let t := (solarTime - pair.1.1) / (pair.2.1 - pair.1.1)
  lerpPalette (paletteFor pair.1.2) (paletteFor pair.2.2) t

/-!
### Resolver lemmas
-/

/-- If the running head's time is at most `solarTime` and `solarTime`
is below the last breakpoint's time, the scan finds a bracketing
pair. -/
theorem scanFrom_finds (solarTime : ℚ) :
    ∀ (l : List (ℚ × String)) (p lst : ℚ × String),
      (p :: l).getLast? = some lst →
      p.1 ≤ solarTime → solarTime < lst.1 →
      ∃ pr nx, scanFrom solarTime p l = some (pr, nx) ∧
        pr.1 ≤ solarTime ∧ solarTime < nx.1 := by
  intro l
  induction l with
  | nil =>
    intro p lst hlast hp hlt
    simp only [List.getLast?_singleton, Option.some.injEq] at hlast
    exact absurd (hlast ▸ hlt) (not_lt.mpr hp)
  | cons q rest ih =>
    intro p lst hlast hp hlt
    rw [List.getLast?_cons_cons] at hlast
    by_cases hq : solarTime < q.1
    · exact ⟨p, q, by simp [scanFrom, hp, hq], hp, hq⟩
    · have hstep : scanFrom solarTime p (q :: rest) = scanFrom solarTime q rest := by
        simp [scanFrom, hq]
      obtain ⟨pr, nx, h1, h2, h3⟩ := ih q lst hlast (not_lt.mp hq) hlt
      exact ⟨pr, nx, hstep ▸ h1, h2, h3⟩

/-- Every pair the scan returns consists of list elements (or the
running head). -/
theorem scanFrom_mem (solarTime : ℚ) :
    ∀ (l : List (ℚ × String)) (p pr nx : ℚ × String),
      scanFrom solarTime p l = some (pr, nx) →
      (pr = p ∨ pr ∈ l) ∧ nx ∈ l := by
  intro l
  induction l with
  | nil => intro p pr nx h; simp [scanFrom] at h
  | cons q rest ih =>
    intro p pr nx h
    rw [scanFrom] at h
    by_cases hc : p.1 ≤ solarTime ∧ solarTime < q.1
    · rw [if_pos hc] at h
      obtain ⟨h1, h2⟩ := Prod.mk.injEq .. ▸ Option.some.injEq .. ▸ h
      exact ⟨Or.inl h1.symm, by simp [← h2]⟩
    · rw [if_neg hc] at h
      obtain ⟨h1, h2⟩ := ih q pr nx h
      refine ⟨?_, List.mem_cons_of_mem q h2⟩
      rcases h1 with h1 | h1
      · exact Or.inr (h1 ▸ List.mem_cons_self q rest)
      · exact Or.inr (List.mem_cons_of_mem q h1)

/-- C10: For every `solarTime ∈ [0,24)`, the breakpoint scan over
`TIME_PHASES` finds a bracketing pair with
`prev.time ≤ solarTime < next.time`, and the interpolation factor
`t = (solarTime - prev.time) / (next.time - prev.time)` satisfies
`0 ≤ t < 1` — the resolver always meets `lerpColor`'s caller
obligation, and the pre-loop default pair is never what the scan
leaves in place for in-range inputs. -/
theorem resolver_scan_brackets (solarTime : ℚ)
    (h0 : 0 ≤ solarTime) (h24 : solarTime < 24) :
    ∃ pr nx,
      scanFrom solarTime (0, "night") TIME_PHASES.tail = some (pr, nx) ∧
      pr.1 ≤ solarTime ∧ solarTime < nx.1 ∧
      0 ≤ (solarTime - pr.1) / (nx.1 - pr.1) ∧
      (solarTime - pr.1) / (nx.1 - pr.1) < 1 := by
  have hlast : (((0 : ℚ), "night") :: TIME_PHASES.tail).getLast? =
      some ((24 : ℚ), "night") := by
    show TIME_PHASES.getLast? = _
    rfl
  obtain ⟨pr, nx, h1, h2, h3⟩ :=
    scanFrom_finds solarTime TIME_PHASES.tail (0, "night") (24, "night")
      hlast h0 h24
  have hlt : pr.1 < nx.1 := lt_of_le_of_lt h2 h3
  have hden : (0 : ℚ) < nx.1 - pr.1 := sub_pos.mpr hlt
  refine ⟨pr, nx, h1, h2, h3, ?_, ?_⟩
  · exact div_nonneg (sub_nonneg.mpr h2) hden.le
  · rw [div_lt_one hden]
    linarith

/-- Witness for C10 at `solarTime = 7`. -/
theorem resolver_scan_brackets_witness :
    (0 : ℚ) ≤ 7 ∧ (7 : ℚ) < 24 ∧
    ∃ pr nx,
      scanFrom 7 (0, "night") TIME_PHASES.tail = some (pr, nx) ∧
      pr.1 ≤ 7 ∧ (7 : ℚ) < nx.1 ∧
      0 ≤ ((7 : ℚ) - pr.1) / (nx.1 - pr.1) ∧
      ((7 : ℚ) - pr.1) / (nx.1 - pr.1) < 1 :=
  ⟨by norm_num, by norm_num,
   resolver_scan_brackets 7 (by norm_num) (by norm_num)⟩

/-- The slot-name list (key set, in order) of a palette. -/
def paletteKeys (p : Palette) : List String := p.map Prod.fst

/-- Interpolation preserves the key set of its first palette. -/
theorem lerpPalette_keys (p1 p2 : Palette) (t : ℚ) :
    paletteKeys (lerpPalette p1 p2 t) = paletteKeys p1 := by
  simp [paletteKeys, lerpPalette, List.map_map, Function.comp]

/-- Every palette in the table declares exactly the slots
`slotKeys`. -/
theorem table_palette_keys :
    ∀ entry ∈ PALETTES, paletteKeys entry.2 = slotKeys := by
  intro e h
  fin_cases h <;> rfl

/-- Every phase name on the timeline resolves to a table palette with
the full slot set. -/
theorem timeline_palette_keys :
    ∀ ph ∈ TIME_PHASES, paletteKeys (paletteFor ph.2) = slotKeys := by
  intro ph h
  fin_cases h <;> rfl

/-- C9: For every `solarTime ∈ [0,24)`, the palette produced by the
resolver (`getCurrentPalette` via `lerpPalette`) contains exactly the
same set of color slots as any palette in the table: every slot
present, no partial palettes. -/
theorem resolver_never_omits_slot (solarTime : ℚ)
    (h0 : 0 ≤ solarTime) (h24 : solarTime < 24) :
    ∀ entry ∈ PALETTES,
      paletteKeys (getCurrentPaletteAt solarTime) = paletteKeys entry.2 := by
  intro entry hentry
  rw [table_palette_keys entry hentry]
  have hlast : (((0 : ℚ), "night") :: TIME_PHASES.tail).getLast? =
      some ((24 : ℚ), "night") := by
    show TIME_PHASES.getLast? = _
    rfl
  obtain ⟨pr, nx, h1, h2, h3⟩ :=
    scanFrom_finds solarTime TIME_PHASES.tail (0, "night") (24, "night")
      hlast h0 h24
  have hb : bracketPair solarTime = (pr, nx) := by rw [bracketPair, h1]; rfl
  have hmem : pr ∈ TIME_PHASES := by
    obtain ⟨hpr, -⟩ := scanFrom_mem solarTime TIME_PHASES.tail (0, "night") pr nx h1
    rcases hpr with h | h
    · exact h ▸
        (show TIME_PHASES = ((0 : ℚ), "night") :: TIME_PHASES.tail from rfl) ▸
        List.mem_cons_self _ _
    · exact (show TIME_PHASES = ((0 : ℚ), "night") :: TIME_PHASES.tail from rfl) ▸
        List.mem_cons_of_mem _ h
  simp only [getCurrentPaletteAt, hb]
  rw [lerpPalette_keys]
  exact timeline_palette_keys pr hmem

/-- Witness for C9 at `solarTime = 7` against the night palette. -/
theorem resolver_never_omits_slot_witness :
    (0 : ℚ) ≤ 7 ∧ (7 : ℚ) < 24 ∧
    ("night", paletteFor "night") ∈ PALETTES ∧
    paletteKeys (getCurrentPaletteAt 7) =
      paletteKeys ("night", paletteFor "night").2 :=
  ⟨by norm_num, by norm_num, by decide,
   resolver_never_omits_slot 7 (by norm_num) (by norm_num)
     ("night", paletteFor "night") (by decide)⟩

/-!
## 4.5 Update Scheduler — `updateColors` (extension.ts lines 592–1039)

The decision logic of one scheduler tick, as a pure function of the
tick's environment.  The large literal color map is summarized by its
serialized hash `colorsHash` (the source compares only
`JSON.stringify(colorCustomizations)` against `lastAppliedColors`),
and the outcome of the two configuration writes by `applyOk`; both are
inputs from the external capabilities, exactly as the claims quantify
over them.
-/

/-- `SolarConfig` (extension.ts lines 6–13). -/
structure SolarConfig where
  enabled : Bool
  latitude : ℚ
  longitude : ℚ
  updateIntervalSeconds : ℚ
  showNotifications : Bool
  intensity : ℚ
deriving DecidableEq, Repr

/-- The module-level mutable state `updateColors` reads and writes
(extension.ts lines 226–231). -/
structure UpdateState where
  isPreviewing : Bool
  lastAppliedColors : String
  updateErrorCount : Nat
deriving DecidableEq, Repr

/-- The observable outcome of one `updateColors(force)` tick. -/
structure TickResult where
  /-- The style-application capability was invoked
  (the `workbench.colorCustomizations` update). -/
  applyCalled : Bool
  /-- `showInformationMessage` was emitted. -/
  notified : Bool
  /-- `showWarningMessage` was emitted. -/
  warned : Bool
  /-- `console.error` was emitted. -/
  loggedError : Bool
  /-- `statusBarItem.hide()` ran (disabled config). -/
  statusHidden : Bool
  state : UpdateState
deriving DecidableEq, Repr

/-- One `updateColors(force)` tick (extension.ts lines 592–603,
954–958, 1002–1038): preview guard, disabled guard, unchanged-hash
short-circuit, then the apply with its success and failure paths. -/
def updateColorsTick (force : Bool) (config : SolarConfig)
    (colorsHash : String) (applyOk : Bool) (s : UpdateState) : TickResult :=
  if s.isPreviewing ∧ ¬force then
    ⟨false, false, false, false, false, s⟩
  else if ¬config.enabled then
    ⟨false, false, false, false, true, s⟩
  else if ¬force ∧ colorsHash = s.lastAppliedColors then
    ⟨false, false, false, false, false, s⟩
  else if applyOk then
    { applyCalled := true,
      notified := force ∧ config.showNotifications,
      warned := false, loggedError := false, statusHidden := false,
      state := { s with lastAppliedColors := colorsHash,
                        updateErrorCount := 0 } }
  else
    { applyCalled := true, notified := false,
      warned := s.updateErrorCount + 1 = 5,
      loggedError := s.updateErrorCount + 1 ≤ 3,
      statusHidden := false,
      state := { s with updateErrorCount := s.updateErrorCount + 1 } }

/-- `n` consecutive non-forced ticks whose apply fails, with the
palette hash held fixed: the sequence of tick outcomes, in order. -/
def runFailingTicks (config : SolarConfig) (colorsHash : String) :
    UpdateState → Nat → List TickResult
  | _, 0 => []
  | s, n + 1 =>
    let r := updateColorsTick false config colorsHash false s
    r :: runFailingTicks config colorsHash r.state n

/-- A failing non-forced tick in an enabled, non-previewing,
changed-hash environment: the error counter increments, the hash and
preview flag are untouched, and the warning/log conditions are the
counter thresholds. -/
theorem updateColorsTick_fail (config : SolarConfig) (colorsHash : String)
    (s : UpdateState) (hen : config.enabled = true)
    (hpre : s.isPreviewing = false) (hne : colorsHash ≠ s.lastAppliedColors) :
    updateColorsTick false config colorsHash false s =
      { applyCalled := true, notified := false,
        warned := s.updateErrorCount + 1 = 5,
        loggedError := s.updateErrorCount + 1 ≤ 3,
        statusHidden := false,
        state := { s with updateErrorCount := s.updateErrorCount + 1 } } := by
  simp [updateColorsTick, hen, hpre, hne]

/-- Warning and log totals of a failing run, for an arbitrary starting
error count `c`. -/
theorem runFailingTicks_counts (config : SolarConfig) (colorsHash : String)
    (hen : config.enabled = true) :
    ∀ (n : Nat) (s : UpdateState),
      s.isPreviewing = false → colorsHash ≠ s.lastAppliedColors →
      (runFailingTicks config colorsHash s n).countP (fun r => r.warned) =
        (if s.updateErrorCount < 5 ∧ 5 ≤ s.updateErrorCount + n then 1 else 0) ∧
      (runFailingTicks config colorsHash s n).countP (fun r => r.loggedError) =
        min n (3 - s.updateErrorCount) := by
  intro n
  induction n with
  | zero =>
    intro s hpre hne
    refine ⟨?_, ?_⟩ <;> simp only [runFailingTicks, List.countP_nil, min_def] <;>
      split_ifs <;> omega
  | succ m ih =>
    intro s hpre hne
    obtain ⟨ihw, ihl⟩ := ih { s with updateErrorCount := s.updateErrorCount + 1 }
      hpre hne
    dsimp only at ihw ihl
    refine ⟨?_, ?_⟩ <;>
      simp only [runFailingTicks,
        updateColorsTick_fail config colorsHash s hen hpre hne,
        List.countP_cons, ihw, ihl, decide_eq_true_eq, min_def] <;>
      clear ihw ihl <;>
      split_ifs <;> omega

/-- C2: When the style-application capability fails on `n ≥ 5`
consecutive scheduler ticks with no intervening success (error counter
starting at 0), exactly one user-visible warning is emitted (upon the
5th consecutive failure, `updateErrorCount == 5`), and no further
warnings however large `n` grows; console error logging fires on
exactly the first three failures (`min n 3`), i.e. is suppressed after
the 3rd consecutive failure. -/
theorem consecutive_failures_warn_once (config : SolarConfig)
    (colorsHash : String) (s : UpdateState) (n : Nat)
    (hen : config.enabled = true) (hpre : s.isPreviewing = false)
    (hzero : s.updateErrorCount = 0)
    (hne : colorsHash ≠ s.lastAppliedColors) (hn : 5 ≤ n) :
    (runFailingTicks config colorsHash s n).countP (fun r => r.warned) = 1 ∧
    (runFailingTicks config colorsHash s n).countP (fun r => r.loggedError) =
      min n 3 := by
  obtain ⟨hw, hl⟩ := runFailingTicks_counts config colorsHash hen n s hpre hne
  rw [hw, hl, hzero]
  refine ⟨?_, by norm_num⟩
  rw [if_pos ⟨by norm_num, by omega⟩]

/-- Witness for C2: seven consecutive failures from a clean state
produce one warning and three console logs. -/
theorem consecutive_failures_warn_once_witness :
    (⟨true, 0, 0, 5, false, 100⟩ : SolarConfig).enabled = true ∧
    (⟨false, "", 0⟩ : UpdateState).isPreviewing = false ∧
    (⟨false, "", 0⟩ : UpdateState).updateErrorCount = 0 ∧
    "h" ≠ (⟨false, "", 0⟩ : UpdateState).lastAppliedColors ∧
    5 ≤ 7 ∧
    ((runFailingTicks ⟨true, 0, 0, 5, false, 100⟩ "h" ⟨false, "", 0⟩ 7).countP
        (fun r => r.warned) = 1 ∧
     (runFailingTicks ⟨true, 0, 0, 5, false, 100⟩ "h" ⟨false, "", 0⟩ 7).countP
        (fun r => r.loggedError) = min 7 3) :=
  ⟨rfl, rfl, rfl, by decide, by norm_num,
   consecutive_failures_warn_once ⟨true, 0, 0, 5, false, 100⟩ "h" ⟨false, "", 0⟩ 7
     rfl rfl rfl (by decide) (by norm_num)⟩

/-- C4 counterexample: with an enabled configuration,
`showNotifications = true`, `force = true`, and a failing style
application, the capability is called but no notification is emitted —
so "emits a user notification iff `showNotifications` is true" is
false as an unconditional statement about a forced tick. -/
theorem force_notification_iff_counterexample :
    (⟨true, 0, 0, 5, true, 100⟩ : SolarConfig).showNotifications = true ∧
    (updateColorsTick true ⟨true, 0, 0, 5, true, 100⟩ "h" false
      ⟨false, "", 0⟩).applyCalled = true ∧
    (updateColorsTick true ⟨true, 0, 0, 5, true, 100⟩ "h" false
      ⟨false, "", 0⟩).notified = false := by
  refine ⟨rfl, ?_, ?_⟩ <;>
    simp [updateColorsTick]

/-- C4 amended: for an enabled configuration, a forced tick always
calls the style-application capability — regardless of hash equality
with the last-applied snapshot and regardless of `isPreviewing` — and,
when the style application succeeds, it emits a user notification iff
`showNotifications` is true (on a failed application no notification
is emitted). -/
theorem force_bypasses_guards (config : SolarConfig) (colorsHash : String)
    (applyOk : Bool) (s : UpdateState) (hen : config.enabled = true) :
    (updateColorsTick true config colorsHash applyOk s).applyCalled = true ∧
    (applyOk = true →
      (updateColorsTick true config colorsHash applyOk s).notified =
        config.showNotifications) := by
  refine ⟨?_, fun hok => ?_⟩ <;>
    simp [updateColorsTick, hen] <;>
    cases applyOk <;> simp_all

/-- Witness for C4 (amended) with the hash equal to the snapshot and
`isPreviewing = true`, success path, notifications enabled. -/
theorem force_bypasses_guards_witness :
    (⟨true, 0, 0, 5, true, 100⟩ : SolarConfig).enabled = true ∧
    ((updateColorsTick true ⟨true, 0, 0, 5, true, 100⟩ "same" true
        ⟨true, "same", 0⟩).applyCalled = true ∧
     (true = true →
       (updateColorsTick true ⟨true, 0, 0, 5, true, 100⟩ "same" true
          ⟨true, "same", 0⟩).notified =
         (⟨true, 0, 0, 5, true, 100⟩ : SolarConfig).showNotifications)) :=
  ⟨rfl, force_bypasses_guards ⟨true, 0, 0, 5, true, 100⟩ "same" true
    ⟨true, "same", 0⟩ rfl⟩

/-- C5: A non-forced tick whose computed color customizations
serialize to the same hash as the last-applied snapshot performs zero
calls to the style-application capability and leaves the entire module
state — in particular `lastAppliedColors` and the error counter —
unchanged. -/
theorem unchanged_hash_skips_apply (config : SolarConfig)
    (colorsHash : String) (applyOk : Bool) (s : UpdateState)
    (heq : colorsHash = s.lastAppliedColors) :
    (updateColorsTick false config colorsHash applyOk s).applyCalled = false ∧
    (updateColorsTick false config colorsHash applyOk s).state.lastAppliedColors =
      s.lastAppliedColors ∧
    (updateColorsTick false config colorsHash applyOk s).state.updateErrorCount =
      s.updateErrorCount := by
  simp only [updateColorsTick]
  split_ifs <;> simp_all

/-- Witness for C5 at a concrete unchanged-hash tick. -/
theorem unchanged_hash_skips_apply_witness :
    "same" = (⟨false, "same", 2⟩ : UpdateState).lastAppliedColors ∧
    ((updateColorsTick false ⟨true, 0, 0, 5, false, 100⟩ "same" true
        ⟨false, "same", 2⟩).applyCalled = false ∧
     (updateColorsTick false ⟨true, 0, 0, 5, false, 100⟩ "same" true
        ⟨false, "same", 2⟩).state.lastAppliedColors =
       (⟨false, "same", 2⟩ : UpdateState).lastAppliedColors ∧
     (updateColorsTick false ⟨true, 0, 0, 5, false, 100⟩ "same" true
        ⟨false, "same", 2⟩).state.updateErrorCount =
       (⟨false, "same", 2⟩ : UpdateState).updateErrorCount) :=
  ⟨rfl, unchanged_hash_skips_apply ⟨true, 0, 0, 5, false, 100⟩ "same" true
    ⟨false, "same", 2⟩ rfl⟩

/-!
## 4.6 Preview Coordinator — `_previewPhase`
(settingsPanel.ts lines 101–124, extension.ts lines 359–409)

The webview message carries an untyped `colors` payload; `_previewPhase`
checks `!colors || !colors.bg || !colors.fg || !colors.accent` before
signalling preview start and invoking the apply command.  A missing
field is JavaScript `undefined` (here `none`) and an empty string is
falsy; both fail the check.
-/

/-- The `{bg, fg, accent}` triple of a preview request; `none` models
a missing (`undefined`) field of the untyped webview payload. -/
structure PreviewColors where
  bg : Option String
  fg : Option String
  accent : Option String
deriving DecidableEq, Repr

/-- JavaScript falsiness of an optional string field:
`undefined` and `""` are falsy. -/
def jsFalsy : Option String → Bool
  | none => true
  | some s => s = ""

/-- The observable outcome of one `_previewPhase` call. -/
structure PreviewOutcome where
  /-- The `solarTheme.applyPreviewColors` command ran
  (styles written, scheduler suspension timer re-armed). -/
  applied : Bool
  /-- `showErrorMessage` was emitted (user-visible). -/
  errorShown : Bool
  /-- The `onPreviewStart` callback fired (Update Scheduler suspended). -/
  previewStarted : Bool
deriving DecidableEq, Repr

/-- `_previewPhase` (settingsPanel.ts lines 101–124): validate the
triple, reject when `!colors || !colors.bg || !colors.fg ||
!colors.accent`, else suspend the scheduler and apply. -/
def previewPhase (colors : Option PreviewColors) : PreviewOutcome :=
  match colors with
  | none => ⟨false, true, false⟩
  | some c =>
    if jsFalsy c.bg || jsFalsy c.fg || jsFalsy c.accent then
      ⟨false, true, false⟩
    else
      ⟨true, false, true⟩

/-- C6 counterexample: a preview request with an empty `bg` field is
rejected without an apply — but NOT silently: the code calls
`showErrorMessage('Solar Theme: Invalid colors')`, which is
user-visible, contradicting "nothing user-visible is shown (logged
only)". -/
theorem preview_invalid_shows_error_counterexample :
    (previewPhase (some ⟨some "", some "#ffffff", some "#000000"⟩)).applied
        = false ∧
    (previewPhase (some ⟨some "", some "#ffffff", some "#000000"⟩)).errorShown
        = true := by
  decide

/-- C6 amended: every preview request whose `bg`/`fg`/`accent` triple
has any field missing or empty is rejected without a style application
and without suspending the scheduler (no crash), but not silently:
a user-visible error message is shown in addition to the console
log. -/
theorem preview_invalid_rejected (colors : Option PreviewColors)
    (h : colors = none ∨ ∃ c, colors = some c ∧
      (jsFalsy c.bg || jsFalsy c.fg || jsFalsy c.accent) = true) :
    (previewPhase colors).applied = false ∧
    (previewPhase colors).previewStarted = false ∧
    (previewPhase colors).errorShown = true := by
  rcases h with h | ⟨c, rfl, hc⟩
  · subst h; exact ⟨rfl, rfl, rfl⟩
  · simp [previewPhase, hc]

/-- Witness for C6 (amended) at a payload with a missing accent
field. -/
theorem preview_invalid_rejected_witness :
    ((some ⟨some "#111111", some "#eeeeee", none⟩ : Option PreviewColors)
        = none ∨
      ∃ c, (some ⟨some "#111111", some "#eeeeee", none⟩ :
          Option PreviewColors) = some c ∧
        (jsFalsy c.bg || jsFalsy c.fg || jsFalsy c.accent) = true) ∧
    ((previewPhase (some ⟨some "#111111", some "#eeeeee", none⟩)).applied
        = false ∧
     (previewPhase (some ⟨some "#111111", some "#eeeeee", none⟩)).previewStarted
        = false ∧
     (previewPhase (some ⟨some "#111111", some "#eeeeee", none⟩)).errorShown
        = true) :=
  ⟨Or.inr ⟨⟨some "#111111", some "#eeeeee", none⟩, rfl, by decide⟩,
   preview_invalid_rejected (some ⟨some "#111111", some "#eeeeee", none⟩)
     (Or.inr ⟨⟨some "#111111", some "#eeeeee", none⟩, rfl, by decide⟩)⟩

/-- Witness for C8 (amended) at the canonical pair
`#1a2b3c` / `#010203`. -/
theorem lerpColor_endpoints_canonical_witness :
    26 ≤ 255 ∧ 43 ≤ 255 ∧ 60 ≤ 255 ∧ 1 ≤ 255 ∧ 2 ≤ 255 ∧ 3 ≤ 255 ∧
    (lerpColor (rgbToHex ((26 : ℕ) : ℚ) ((43 : ℕ) : ℚ) ((60 : ℕ) : ℚ))
        (rgbToHex ((1 : ℕ) : ℚ) ((2 : ℕ) : ℚ) ((3 : ℕ) : ℚ)) 0 =
      rgbToHex ((26 : ℕ) : ℚ) ((43 : ℕ) : ℚ) ((60 : ℕ) : ℚ) ∧
     lerpColor (rgbToHex ((26 : ℕ) : ℚ) ((43 : ℕ) : ℚ) ((60 : ℕ) : ℚ))
        (rgbToHex ((1 : ℕ) : ℚ) ((2 : ℕ) : ℚ) ((3 : ℕ) : ℚ)) 1 =
      rgbToHex ((1 : ℕ) : ℚ) ((2 : ℕ) : ℚ) ((3 : ℕ) : ℚ)) :=
  ⟨by norm_num, by norm_num, by norm_num, by norm_num, by norm_num, by norm_num,
   lerpColor_endpoints_canonical 26 43 60 1 2 3 (by norm_num) (by norm_num)
     (by norm_num) (by norm_num) (by norm_num) (by norm_num)⟩
